import Mathlib

/-! Safe-content values (`autoescape/content.go`)

A shallow embedding of the six trusted-string types `CSS`, `HTML`, `HTMLAttr`,
`JS`, `JSStr`, `URL` of package `autoescape` and of their three methods
`Truthy`, `String`, `Equals`, followed by the properties stated about them.

Embedding conventions.

* A Go `string` is embedded as a Lean `String` (`GoString`).  The methods only
  compare payloads for equality and against the empty string, so nothing
  depends on how the characters are encoded.
* Each of the six named types `type K string` is a one-field structure, so the
  six are distinct types, as they are in Go.
* A value of the interface type `data.Value` is either the nil interface value,
  a value whose dynamic type is one of the six types of this file, or a value
  whose dynamic type is declared elsewhere.
* The comma-ok type assertion `o, ok := other.(K)` is a function returning the
  pair `(o, ok)`; on failure `o` is the zero value of `K` and `ok` is `false`.
-/

namespace autoescape

/-- Go's predeclared `string` type. -/
abbrev GoString := String

/-! ## The six named string types (content.go, lines 11-55) -/

/-- Source: `CSS string`. -/
structure CSS where
  val : GoString
deriving DecidableEq, Repr

/-- Source: `HTML string`. -/
structure HTML where
  val : GoString
deriving DecidableEq, Repr

/-- Source: `HTMLAttr string`. -/
structure HTMLAttr where
  val : GoString
deriving DecidableEq, Repr

/-- Source: `JS string`. -/
structure JS where
  val : GoString
deriving DecidableEq, Repr

/-- Source: `JSStr string`. -/
structure JSStr where
  val : GoString
deriving DecidableEq, Repr

/-- Source: `URL string`. -/
structure URL where
  val : GoString
deriving DecidableEq, Repr

/-! ## Interface values -/

/-- A value whose dynamic type is one of the six types of this file. -/
inductive Safe where
  | css (v : CSS)
  | html (v : HTML)
  | htmlAttr (v : HTMLAttr)
  | js (v : JS)
  | jsStr (v : JSStr)
  | url (v : URL)
deriving DecidableEq, Repr

/-- Modelled from the spec: the interface type `data.Value` of the imported
package `data`, whose declaration is not part of this file.  A value of an
interface type is the nil interface value, or a dynamic type together with a
value of it; `Ext` stands for the values of every dynamic type other than the
six of this file (plain strings, numbers, lists, maps, pointers, ...). -/
inductive Value (Ext : Type) where
  | nil : Value Ext
  | safe (s : Safe) : Value Ext
  | ext (e : Ext) : Value Ext

/-! ## Comma-ok type assertions `o, ok := other.(K)` -/

/-- The assertion `other.(CSS)` in its two-result form. -/
def Value.assertCSS {Ext : Type} (other : Value Ext) : CSS × Bool :=
  match other with
  | .safe (.css o) => (o, true)
  | _ => (⟨""⟩, false)

/-- The assertion `other.(HTML)` in its two-result form. -/
def Value.assertHTML {Ext : Type} (other : Value Ext) : HTML × Bool :=
  match other with
  | .safe (.html o) => (o, true)
  | _ => (⟨""⟩, false)

/-- The assertion `other.(HTMLAttr)` in its two-result form. -/
def Value.assertHTMLAttr {Ext : Type} (other : Value Ext) : HTMLAttr × Bool :=
  match other with
  | .safe (.htmlAttr o) => (o, true)
  | _ => (⟨""⟩, false)

/-- The assertion `other.(JS)` in its two-result form. -/
def Value.assertJS {Ext : Type} (other : Value Ext) : JS × Bool :=
  match other with
  | .safe (.js o) => (o, true)
  | _ => (⟨""⟩, false)

/-- The assertion `other.(JSStr)` in its two-result form. -/
def Value.assertJSStr {Ext : Type} (other : Value Ext) : JSStr × Bool :=
  match other with
  | .safe (.jsStr o) => (o, true)
  | _ => (⟨""⟩, false)

/-- The assertion `other.(URL)` in its two-result form. -/
def Value.assertURL {Ext : Type} (other : Value Ext) : URL × Bool :=
  match other with
  | .safe (.url o) => (o, true)
  | _ => (⟨""⟩, false)

/-! ## `Truthy` (content.go, lines 57-62) -/

/-- Source: `func (v HTML) Truthy() bool { return v != "" }`. -/
def HTML.Truthy (v : HTML) : Bool := v.val != ""

/-- Source: `func (v HTMLAttr) Truthy() bool { return v != "" }`. -/
def HTMLAttr.Truthy (v : HTMLAttr) : Bool := v.val != ""

/-- Source: `func (v JS) Truthy() bool { return v != "" }`. -/
def JS.Truthy (v : JS) : Bool := v.val != ""

/-- Source: `func (v JSStr) Truthy() bool { return v != "" }`. -/
def JSStr.Truthy (v : JSStr) : Bool := v.val != ""

/-- Source: `func (v URL) Truthy() bool { return v != "" }`. -/
def URL.Truthy (v : URL) : Bool := v.val != ""

/-- Source: `func (v CSS) Truthy() bool { return v != "" }`. -/
def CSS.Truthy (v : CSS) : Bool := v.val != ""

/-! ## `String` (content.go, lines 64-69) -/

/-- Source: `func (v HTML) String() string { return string(v) }`. -/
def HTML.String (v : HTML) : GoString := v.val

/-- Source: `func (v HTMLAttr) String() string { return string(v) }`. -/
def HTMLAttr.String (v : HTMLAttr) : GoString := v.val

/-- Source: `func (v JS) String() string { return string(v) }`. -/
def JS.String (v : JS) : GoString := v.val

/-- Source: `func (v JSStr) String() string { return string(v) }`. -/
def JSStr.String (v : JSStr) : GoString := v.val

/-- Source: `func (v URL) String() string { return string(v) }`. -/
def URL.String (v : URL) : GoString := v.val

/-- Source: `func (v CSS) String() string { return string(v) }`. -/
def CSS.String (v : CSS) : GoString := v.val

/-! ## `Equals` (content.go, lines 71-99) -/

/-- Source: `o, ok := other.(HTML); return ok && string(v) == string(o)`. -/
def HTML.Equals {Ext : Type} (v : HTML) (other : Value Ext) : Bool :=
  let (o, ok) := other.assertHTML
  ok && v.val == o.val

/-- Source: `o, ok := other.(HTMLAttr); return ok && string(v) == string(o)`. -/
def HTMLAttr.Equals {Ext : Type} (v : HTMLAttr) (other : Value Ext) : Bool :=
  let (o, ok) := other.assertHTMLAttr
  ok && v.val == o.val

/-- Source: `o, ok := other.(JS); return ok && string(v) == string(o)`. -/
def JS.Equals {Ext : Type} (v : JS) (other : Value Ext) : Bool :=
  let (o, ok) := other.assertJS
  ok && v.val == o.val

/-- Source: `o, ok := other.(JSStr); return ok && string(v) == string(o)`. -/
def JSStr.Equals {Ext : Type} (v : JSStr) (other : Value Ext) : Bool :=
  let (o, ok) := other.assertJSStr
  ok && v.val == o.val

/-- Source: `o, ok := other.(URL); return ok && string(v) == string(o)`. -/
def URL.Equals {Ext : Type} (v : URL) (other : Value Ext) : Bool :=
  let (o, ok) := other.assertURL
  ok && v.val == o.val

/-- Source: `o, ok := other.(CSS); return ok && string(v) == string(o)`. -/
def CSS.Equals {Ext : Type} (v : CSS) (other : Value Ext) : Bool :=
  let (o, ok) := other.assertCSS
  ok && v.val == o.val

/-! ## Method calls on a value of any of the six types

Go selects the method by the static type of the receiver; `Safe.Truthy`,
`Safe.String` and `Safe.Equals` select the method of the receiver's type. -/

/-- The call `a.Truthy()` for a receiver of any of the six types. -/
def Safe.Truthy : Safe → Bool
  | .css v => v.Truthy
  | .html v => v.Truthy
  | .htmlAttr v => v.Truthy
  | .js v => v.Truthy
  | .jsStr v => v.Truthy
  | .url v => v.Truthy

/-- The call `a.String()` for a receiver of any of the six types. -/
def Safe.String : Safe → GoString
  | .css v => v.String
  | .html v => v.String
  | .htmlAttr v => v.String
  | .js v => v.String
  | .jsStr v => v.String
  | .url v => v.String

/-- The call `a.Equals(other)` for a receiver of any of the six types. -/
def Safe.Equals {Ext : Type} (a : Safe) (other : Value Ext) : Bool :=
  match a with
  | .css v => v.Equals other
  | .html v => v.Equals other
  | .htmlAttr v => v.Equals other
  | .js v => v.Equals other
  | .jsStr v => v.Equals other
  | .url v => v.Equals other

/-- Passing a value of one of the six types where a `data.Value` is expected. -/
def Safe.toValue {Ext : Type} (a : Safe) : Value Ext := .safe a

/-! ## Kinds and wrapping -/

/-- The six kinds: one tag per named type of the file. -/
inductive Kind where
  | css
  | html
  | htmlAttr
  | js
  | jsStr
  | url
deriving DecidableEq, Repr

/-- The Go conversion `K(t)` of a text to the named type of kind `K`. -/
def wrap (k : Kind) (t : GoString) : Safe :=
  match k with
  | .css => .css ⟨t⟩
  | .html => .html ⟨t⟩
  | .htmlAttr => .htmlAttr ⟨t⟩
  | .js => .js ⟨t⟩
  | .jsStr => .jsStr ⟨t⟩
  | .url => .url ⟨t⟩

/-- The kind of a value: which of the six types it has. -/
def Safe.kind : Safe → Kind
  | .css _ => .css
  | .html _ => .html
  | .htmlAttr _ => .htmlAttr
  | .js _ => .js
  | .jsStr _ => .jsStr
  | .url _ => .url

/-- The payload of a value: the conversion `string(v)` back to plain text. -/
def Safe.payload : Safe → GoString
  | .css v => v.val
  | .html v => v.val
  | .htmlAttr v => v.val
  | .js v => v.val
  | .jsStr v => v.val
  | .url v => v.val

/-! ## The tagged-union model of the specification (design note "kind as field") -/

/-- Specification model: a safe value is a pair of a kind and a payload. -/
structure Tagged where
  kind : Kind
  payload : GoString
deriving DecidableEq, Repr

/-- Specification model: `truthy(k, p)` holds when `p` is non-empty. -/
def Tagged.truthy (m : Tagged) : Bool := decide (0 < m.payload.length)

/-- Specification model: `text(k, p) = p`. -/
def Tagged.text (m : Tagged) : GoString := m.payload

/-- Specification model: `equal((k, p), (k', p'))` is `k = k'` and `p = p'`. -/
def Tagged.equal (m n : Tagged) : Bool := decide (m.kind = n.kind ∧ m.payload = n.payload)

/-- The pair (kind, payload) a value of one of the six types is mapped to. -/
def Safe.abs (a : Safe) : Tagged := ⟨a.kind, a.payload⟩

/-- The pair an interface value is mapped to, when it holds one of the six types. -/
def Value.abs {Ext : Type} : Value Ext → Option Tagged
  | .safe s => some s.abs
  | _ => none

/-- The `ok` result of the assertion `other.(K)` for the type of kind `K`. -/
def Value.assertOk {Ext : Type} (k : Kind) (other : Value Ext) : Bool :=
  match k with
  | .css => other.assertCSS.2
  | .html => other.assertHTML.2
  | .htmlAttr => other.assertHTMLAttr.2
  | .js => other.assertJS.2
  | .jsStr => other.assertJSStr.2
  | .url => other.assertURL.2

/-- Specification model of equality against an arbitrary value: values outside
the six kinds are equal to nothing. -/
def Tagged.equalValue (m : Tagged) (o : Option Tagged) : Bool :=
  match o with
  | some n => m.equal n
  | none => false

/-! ## Execution with run-time panics

The definitions above give the value each method computes.  The definitions
below follow the method bodies statement by statement in a monad of outcomes,
in which a Go operation that can fail at run time yields `Except.error`.  Of
the operations occurring in the eighteen bodies (string comparison, the
conversion `string(v)`, `&&`, and the type assertion) only a type assertion in
its single-result form can fail. -/

/-- The run-time failures of Go relevant to the operations of this file. -/
inductive Panic where
  | typeAssertion
deriving DecidableEq, Repr

/-- The outcome of running Go code: a result, or a run-time panic. -/
abbrev Exec (α : Type) := Except Panic α

/-- The two-result form `o, ok := x.(K)` of a type assertion, given the outcome
`r` of the dynamic type test: it yields the pair and never panics. -/
def commaOk {K : Type} (r : K × Bool) : Exec (K × Bool) := pure r

/-- The single-result form `o := x.(K)` of a type assertion, given the outcome
`r` of the dynamic type test: it yields the value when the test succeeds and
panics when it fails. -/
def singleResult {K : Type} (r : K × Bool) : Exec K :=
  if r.2 then pure r.1 else throw Panic.typeAssertion

/-- Running `func (v HTML) Truthy() bool { return v != "" }`. -/
def HTML.execTruthy (v : HTML) : Exec Bool := do
  return v.val != ""

/-- Running `func (v HTMLAttr) Truthy() bool { return v != "" }`. -/
def HTMLAttr.execTruthy (v : HTMLAttr) : Exec Bool := do
  return v.val != ""

/-- Running `func (v JS) Truthy() bool { return v != "" }`. -/
def JS.execTruthy (v : JS) : Exec Bool := do
  return v.val != ""

/-- Running `func (v JSStr) Truthy() bool { return v != "" }`. -/
def JSStr.execTruthy (v : JSStr) : Exec Bool := do
  return v.val != ""

/-- Running `func (v URL) Truthy() bool { return v != "" }`. -/
def URL.execTruthy (v : URL) : Exec Bool := do
  return v.val != ""

/-- Running `func (v CSS) Truthy() bool { return v != "" }`. -/
def CSS.execTruthy (v : CSS) : Exec Bool := do
  return v.val != ""

/-- Running `func (v HTML) String() string { return string(v) }`. -/
def HTML.execString (v : HTML) : Exec GoString := do
  return v.val

/-- Running `func (v HTMLAttr) String() string { return string(v) }`. -/
def HTMLAttr.execString (v : HTMLAttr) : Exec GoString := do
  return v.val

/-- Running `func (v JS) String() string { return string(v) }`. -/
def JS.execString (v : JS) : Exec GoString := do
  return v.val

/-- Running `func (v JSStr) String() string { return string(v) }`. -/
def JSStr.execString (v : JSStr) : Exec GoString := do
  return v.val

/-- Running `func (v URL) String() string { return string(v) }`. -/
def URL.execString (v : URL) : Exec GoString := do
  return v.val

/-- Running `func (v CSS) String() string { return string(v) }`. -/
def CSS.execString (v : CSS) : Exec GoString := do
  return v.val

/-- Running `o, ok := other.(HTML); return ok && string(v) == string(o)`. -/
def HTML.execEquals {Ext : Type} (v : HTML) (other : Value Ext) : Exec Bool := do
  let (o, ok) ← commaOk other.assertHTML
  return ok && v.val == o.val

/-- Running `o, ok := other.(HTMLAttr); return ok && string(v) == string(o)`. -/
def HTMLAttr.execEquals {Ext : Type} (v : HTMLAttr) (other : Value Ext) : Exec Bool := do
  let (o, ok) ← commaOk other.assertHTMLAttr
  return ok && v.val == o.val

/-- Running `o, ok := other.(JS); return ok && string(v) == string(o)`. -/
def JS.execEquals {Ext : Type} (v : JS) (other : Value Ext) : Exec Bool := do
  let (o, ok) ← commaOk other.assertJS
  return ok && v.val == o.val

/-- Running `o, ok := other.(JSStr); return ok && string(v) == string(o)`. -/
def JSStr.execEquals {Ext : Type} (v : JSStr) (other : Value Ext) : Exec Bool := do
  let (o, ok) ← commaOk other.assertJSStr
  return ok && v.val == o.val

/-- Running `o, ok := other.(URL); return ok && string(v) == string(o)`. -/
def URL.execEquals {Ext : Type} (v : URL) (other : Value Ext) : Exec Bool := do
  let (o, ok) ← commaOk other.assertURL
  return ok && v.val == o.val

/-- Running `o, ok := other.(CSS); return ok && string(v) == string(o)`. -/
def CSS.execEquals {Ext : Type} (v : CSS) (other : Value Ext) : Exec Bool := do
  let (o, ok) ← commaOk other.assertCSS
  return ok && v.val == o.val

/-- Running the call `a.Truthy()` for a receiver of any of the six types. -/
def Safe.execTruthy : Safe → Exec Bool
  | .css v => v.execTruthy
  | .html v => v.execTruthy
  | .htmlAttr v => v.execTruthy
  | .js v => v.execTruthy
  | .jsStr v => v.execTruthy
  | .url v => v.execTruthy

/-- Running the call `a.String()` for a receiver of any of the six types. -/
def Safe.execString : Safe → Exec GoString
  | .css v => v.execString
  | .html v => v.execString
  | .htmlAttr v => v.execString
  | .js v => v.execString
  | .jsStr v => v.execString
  | .url v => v.execString

/-- Running the call `a.Equals(other)` for a receiver of any of the six types. -/
def Safe.execEquals {Ext : Type} (a : Safe) (other : Value Ext) : Exec Bool :=
  match a with
  | .css v => v.execEquals other
  | .html v => v.execEquals other
  | .htmlAttr v => v.execEquals other
  | .js v => v.execEquals other
  | .jsStr v => v.execEquals other
  | .url v => v.execEquals other

/-- The body of `HTML.Equals` with the assertion in its single-result form,
`o := other.(HTML); return string(v) == string(o)`.  The source does not
contain this body; it is the variant the comma-ok form guards against. -/
def HTML.execEqualsSingleResult {Ext : Type} (v : HTML) (other : Value Ext) : Exec Bool := do
  let o ← singleResult other.assertHTML
  return v.val == o.val

/-! ## Shared lemmas -/

/-- On a value of one of the six types, `Equals` decides equality of the two
values: same type and same payload. -/
theorem Safe.Equals_safe_iff {Ext : Type} (a b : Safe) :
    a.Equals (Value.safe b : Value Ext) = true ↔ a = b := by
  cases a <;> cases b <;>
    simp [Safe.Equals, CSS.Equals, HTML.Equals, HTMLAttr.Equals, JS.Equals, JSStr.Equals,
      URL.Equals, Value.assertCSS, Value.assertHTML, Value.assertHTMLAttr, Value.assertJS,
      Value.assertJSStr, Value.assertURL] <;>
    (rename_i v o; cases v; cases o; simp)

/-- On the nil interface value every assertion fails and `Equals` is false. -/
theorem Safe.Equals_nil {Ext : Type} (a : Safe) :
    a.Equals (Value.nil : Value Ext) = false := by
  cases a <;> rfl

/-- On a value of a foreign dynamic type every assertion fails and `Equals` is false. -/
theorem Safe.Equals_ext {Ext : Type} (a : Safe) (e : Ext) :
    a.Equals (Value.ext e) = false := by
  cases a <;> rfl

/-- Wrapping is injective in the kind and in the text together. -/
theorem wrap_eq_wrap_iff (k k' : Kind) (t t' : GoString) :
    wrap k t = wrap k' t' ↔ k = k' ∧ t = t' := by
  cases k <;> cases k' <;> simp [wrap]

/-- Every value of one of the six types is the wrapping of its payload under its kind. -/
theorem wrap_kind_payload (a : Safe) : wrap a.kind a.payload = a := by
  cases a <;> rfl

/-- A text has length zero exactly when it is the empty text. -/
theorem length_pos_iff_ne_empty (t : GoString) : 0 < t.length ↔ t ≠ "" := by
  rw [Nat.pos_iff_ne_zero]
  constructor
  · intro h e
    subst e
    exact h rfl
  · intro h e
    apply h
    apply String.ext
    exact List.length_eq_zero.mp e

/-- The six `Truthy` methods test the payload against the empty text. -/
theorem Safe.Truthy_iff (a : Safe) : a.Truthy = true ↔ a.payload ≠ "" := by
  cases a <;>
    simp [Safe.Truthy, Safe.payload, CSS.Truthy, HTML.Truthy, HTMLAttr.Truthy, JS.Truthy,
      JSStr.Truthy, URL.Truthy]

/-- The six `String` methods return the payload. -/
theorem Safe.String_eq_payload (a : Safe) : a.String = a.payload := by
  cases a <;> rfl

/-- When the assertion to the receiver's own type fails, `Equals` is false. -/
theorem Safe.Equals_of_assert_failed {Ext : Type} (a : Safe) (v : Value Ext)
    (h : v.assertOk a.kind = false) : a.Equals v = false := by
  cases a <;>
    simp only [Safe.kind, Value.assertOk] at h <;>
    simp [Safe.Equals, CSS.Equals, HTML.Equals, HTMLAttr.Equals, JS.Equals, JSStr.Equals,
      URL.Equals, h]

/-- The kind of a wrapping is the kind wrapped under. -/
theorem kind_wrap (k : Kind) (t : GoString) : (wrap k t).kind = k := by
  cases k <;> rfl

/-- The payload of a wrapping is the text wrapped. -/
theorem payload_wrap (k : Kind) (t : GoString) : (wrap k t).payload = t := by
  cases k <;> rfl

/-- Two values of the six types with the same kind and payload are the same value. -/
theorem Safe.eq_of_kind_payload (a b : Safe) (hk : a.kind = b.kind)
    (hp : a.payload = b.payload) : a = b := by
  rw [← wrap_kind_payload a, ← wrap_kind_payload b, hk, hp]

/-- Running `Truthy` never panics and yields the value of `Safe.Truthy`. -/
theorem Safe.execTruthy_eq (a : Safe) : a.execTruthy = Except.ok a.Truthy := by
  cases a <;> rfl

/-- Running `String` never panics and yields the value of `Safe.String`. -/
theorem Safe.execString_eq (a : Safe) : a.execString = Except.ok a.String := by
  cases a <;> rfl

/-- Running `Equals` never panics and yields the value of `Safe.Equals`. -/
theorem Safe.execEquals_eq {Ext : Type} (a : Safe) (v : Value Ext) :
    a.execEquals v = Except.ok (a.Equals v) := by
  cases a <;> rfl

/-- The single-result form panics exactly when the dynamic type test fails. -/
theorem singleResult_failed {K : Type} (r : K × Bool) (h : r.2 = false) :
    singleResult r = Except.error Panic.typeAssertion := by
  simp [singleResult, h]
  rfl

/-- With the assertion in its single-result form, comparing against the nil
interface value would panic: outcomes tell the two forms apart. -/
theorem HTML.execEqualsSingleResult_nil (Ext : Type) (t : GoString) :
    HTML.execEqualsSingleResult ⟨t⟩ (Value.nil : Value Ext) =
      Except.error Panic.typeAssertion := by
  rfl

/-! ## The claims -/

/-- C1: for all kinds K, K' among the six and all texts t, t', `Equals` of the
K-wrapper of t applied to the K'-wrapper of t' returns true if and only if
K = K' and t = t'; as a boolean, the result is `K == K' && t == t'`. -/
theorem C1_Equals_wrap_iff (Ext : Type) (k k' : Kind) (t t' : GoString) :
    ((wrap k t).Equals ((wrap k' t').toValue : Value Ext) = true ↔ k = k' ∧ t = t') ∧
    (wrap k t).Equals ((wrap k' t').toValue : Value Ext) = (decide (k = k') && decide (t = t')) := by
  have h : (wrap k t).Equals ((wrap k' t').toValue : Value Ext) = true ↔ k = k' ∧ t = t' := by
    unfold Safe.toValue
    rw [Safe.Equals_safe_iff, wrap_eq_wrap_iff]
  refine ⟨h, ?_⟩
  rw [Bool.eq_iff_iff, h]
  simp

/-- C2: wrappers of two distinct kinds are never equal, whatever their payloads
(in particular when both carry the same text), in both argument orders. -/
theorem C2_Equals_cross_kind_false (Ext : Type) (k k' : Kind) (t t' : GoString)
    (h : k ≠ k') :
    (wrap k t).Equals ((wrap k' t').toValue : Value Ext) = false ∧
    (wrap k' t').Equals ((wrap k t).toValue : Value Ext) = false := by
  unfold Safe.toValue
  constructor
  · rw [Bool.eq_false_iff]
    intro e
    exact h ((wrap_eq_wrap_iff _ _ _ _).mp ((Safe.Equals_safe_iff _ _).mp e)).1
  · rw [Bool.eq_false_iff]
    intro e
    exact h ((wrap_eq_wrap_iff _ _ _ _).mp ((Safe.Equals_safe_iff _ _).mp e)).1.symm

/-- C2 at HTML("x") against HTMLAttr("x"), same text and different kinds. -/
theorem C2_Equals_cross_kind_false_witness :
    Kind.html ≠ Kind.htmlAttr ∧
    (wrap .html "x").Equals ((wrap .htmlAttr "x").toValue : Value Unit) = false ∧
    (wrap .htmlAttr "x").Equals ((wrap .html "x").toValue : Value Unit) = false :=
  ⟨by decide, C2_Equals_cross_kind_false Unit .html .htmlAttr "x" "x" (by decide)⟩

/-- C3: for every kind K, payload t and value v of the interface type that is
not one of the six safe-content wrappers (the nil value, or a value of any
other dynamic type), `Equals` of the K-wrapper of t applied to v returns
false; being a total function it returns this result without failing. -/
theorem C3_Equals_non_safe_false (Ext : Type) (k : Kind) (t : GoString) (v : Value Ext)
    (h : ∀ s : Safe, v ≠ s.toValue) :
    (wrap k t).Equals v = false := by
  cases v with
  | nil => exact Safe.Equals_nil _
  | safe s => exact absurd rfl (h s)
  | ext e => exact Safe.Equals_ext _ e

/-- C3 at HTML("x") against a plain string value carrying the same text "x". -/
theorem C3_Equals_non_safe_false_witness :
    (∀ s : Safe, (Value.ext "x" : Value GoString) ≠ s.toValue) ∧
    (wrap .html "x").Equals (Value.ext "x" : Value GoString) = false :=
  ⟨fun _ e => Value.noConfusion e,
    C3_Equals_non_safe_false GoString .html "x" (Value.ext "x") (fun _ e => Value.noConfusion e)⟩

/-- C4: for every kind K and text t, `String` of the K-wrapper of t returns
exactly t: the same length and the same characters in the same order. -/
theorem C4_String_wrap (k : Kind) (t : GoString) :
    (wrap k t).String = t ∧
    (wrap k t).String.length = t.length ∧
    (wrap k t).String.data = t.data := by
  have h : (wrap k t).String = t := by
    rw [Safe.String_eq_payload, payload_wrap]
  rw [h]
  exact ⟨rfl, rfl, rfl⟩

/-- C5: for every kind K and text t, `Truthy` of the K-wrapper of t returns
true if and only if t is not the empty text; a whitespace-only payload is
truthy and the empty payload is falsy, for each of the six kinds. -/
theorem C5_Truthy_wrap_iff (k : Kind) (t : GoString) :
    ((wrap k t).Truthy = true ↔ t ≠ "") ∧
    (wrap k t).Truthy = decide (t ≠ "") ∧
    (wrap k " ").Truthy = true ∧
    (wrap k "").Truthy = false := by
  have h : ∀ u : GoString, (wrap k u).Truthy = true ↔ u ≠ "" := by
    intro u
    rw [Safe.Truthy_iff, payload_wrap]
  refine ⟨h t, ?_, ?_, ?_⟩
  · rw [Bool.eq_iff_iff, h]
    simp
  · rw [h]
    decide
  · rw [Bool.eq_false_iff, Ne, h]
    simp

/-- C6: for each kind K, `Equals` restricted to wrappers of kind K is an
equivalence relation: it is reflexive, symmetric (as a boolean,
a.Equals(b) = b.Equals(a)) and transitive. -/
theorem C6_Equals_equivalence (Ext : Type) (k : Kind) (ta tb tc : GoString) :
    (wrap k ta).Equals ((wrap k ta).toValue : Value Ext) = true ∧
    (wrap k ta).Equals ((wrap k tb).toValue : Value Ext) =
      (wrap k tb).Equals ((wrap k ta).toValue : Value Ext) ∧
    ((wrap k ta).Equals ((wrap k tb).toValue : Value Ext) = true →
      (wrap k tb).Equals ((wrap k tc).toValue : Value Ext) = true →
      (wrap k ta).Equals ((wrap k tc).toValue : Value Ext) = true) := by
  unfold Safe.toValue
  refine ⟨(Safe.Equals_safe_iff _ _).mpr rfl, ?_, ?_⟩
  · rw [Bool.eq_iff_iff, Safe.Equals_safe_iff, Safe.Equals_safe_iff]
    exact eq_comm
  · intro hab hbc
    rw [Safe.Equals_safe_iff] at hab hbc ⊢
    exact hab.trans hbc

/-- C6 at three URL wrappers of the same text, where both premises of
transitivity hold. -/
theorem C6_Equals_equivalence_witness :
    (wrap .url "https://a").Equals ((wrap .url "https://a").toValue : Value Unit) = true ∧
    (wrap .url "https://a").Equals ((wrap .url "https://a").toValue : Value Unit) =
      (wrap .url "https://a").Equals ((wrap .url "https://a").toValue : Value Unit) ∧
    (wrap .url "https://a").Equals ((wrap .url "https://a").toValue : Value Unit) = true :=
  have h := C6_Equals_equivalence Unit .url "https://a" "https://a" "https://a"
  ⟨h.1, h.2.1, h.2.2 h.1 h.1⟩

/-- C7: every operation is total: for every kind K, payload t (the empty text
included) and argument v of the interface type (the nil value and values of
unrelated types included), running `Truthy`, `String` and `Equals` of the
K-wrapper of t each ends in a result and not in a panic, the result being the
value the method computes; when the assertion to the receiver's type fails,
as it does on the nil value, running `Equals` ends in the result false. -/
theorem C7_operations_total (Ext : Type) (k : Kind) (t : GoString) (v : Value Ext) :
    (∃ b : Bool, (wrap k t).execTruthy = Except.ok b) ∧
    (∃ s : GoString, (wrap k t).execString = Except.ok s) ∧
    (∃ e : Bool, (wrap k t).execEquals v = Except.ok e) ∧
    (wrap k t).execTruthy = Except.ok (wrap k t).Truthy ∧
    (wrap k t).execString = Except.ok (wrap k t).String ∧
    (wrap k t).execEquals v = Except.ok ((wrap k t).Equals v) ∧
    (v.assertOk k = false → (wrap k t).execEquals v = Except.ok false) ∧
    (wrap k t).execEquals (Value.nil : Value Ext) = Except.ok false := by
  refine ⟨⟨_, Safe.execTruthy_eq _⟩, ⟨_, Safe.execString_eq _⟩, ⟨_, Safe.execEquals_eq _ v⟩,
    Safe.execTruthy_eq _, Safe.execString_eq _, Safe.execEquals_eq _ v, ?_, ?_⟩
  · intro h
    rw [Safe.execEquals_eq]
    apply congrArg
    apply Safe.Equals_of_assert_failed
    rw [kind_wrap]
    exact h
  · rw [Safe.execEquals_eq, Safe.Equals_nil]

/-- C7 at the empty JS payload against a value of an unrelated type, where the
assertion `other.(JS)` fails. -/
theorem C7_operations_total_witness :
    (Value.ext 7 : Value Int).assertOk .js = false ∧
    (wrap .js "").execTruthy = Except.ok false ∧
    (wrap .js "").execString = Except.ok "" ∧
    (wrap .js "").execEquals (Value.ext 7 : Value Int) = Except.ok false :=
  have h := C7_operations_total Int .js "" (Value.ext 7)
  ⟨rfl, h.2.2.2.1.trans (congrArg Except.ok (by decide)), h.2.2.2.2.1, h.2.2.2.2.2.2.1 rfl⟩

/-- C8: the six per-type implementations agree with the single tagged-union
model: under the map of a wrapper to its pair (kind, payload), which is a
bijection with inverse `wrap`, the code's `Truthy`, `String` and `Equals` are
the model's `truthy`, `text` and `equal` on every input, `Equals` being false
on every argument that is not one of the six wrappers. -/
theorem C8_refines_tagged_union (Ext : Type) (a b : Safe) (v : Value Ext) :
    a.Truthy = a.abs.truthy ∧
    a.String = a.abs.text ∧
    a.Equals (b.toValue : Value Ext) = a.abs.equal b.abs ∧
    a.Equals v = a.abs.equalValue v.abs ∧
    wrap a.abs.kind a.abs.payload = a ∧
    (∀ (k : Kind) (t : GoString), (wrap k t).abs = ⟨k, t⟩) := by
  have hab : ∀ c : Safe, a.Equals (Value.safe c : Value Ext) = a.abs.equal c.abs := by
    intro c
    rw [Bool.eq_iff_iff, Safe.Equals_safe_iff]
    simp only [Tagged.equal, Safe.abs, decide_eq_true_eq]
    constructor
    · intro e
      subst e
      exact ⟨rfl, rfl⟩
    · intro e
      exact Safe.eq_of_kind_payload a c e.1 e.2
  refine ⟨?_, ?_, hab b, ?_, wrap_kind_payload a, ?_⟩
  · rw [Bool.eq_iff_iff, Safe.Truthy_iff]
    simp only [Tagged.truthy, Safe.abs, decide_eq_true_eq]
    exact (length_pos_iff_ne_empty _).symm
  · exact Safe.String_eq_payload a
  · cases v with
    | nil => exact Safe.Equals_nil a
    | safe c => exact hab c
    | ext e => exact Safe.Equals_ext a e
  · intro k t
    simp only [Safe.abs, kind_wrap, payload_wrap]

/-- C9: `Equals` is symmetric across all safe-content values: for every two
wrappers a and b of any of the six kinds, a.Equals(b) = b.Equals(a). -/
theorem C9_Equals_symmetric (Ext : Type) (a b : Safe) :
    a.Equals (b.toValue : Value Ext) = b.Equals (a.toValue : Value Ext) := by
  unfold Safe.toValue
  rw [Bool.eq_iff_iff, Safe.Equals_safe_iff, Safe.Equals_safe_iff]
  exact eq_comm

/-- C10: `Equals` is a congruence for `String` and `Truthy`: if a.Equals(b) is
true then a.String() = b.String() and a.Truthy() = b.Truthy(); and for
wrappers of the same kind, a.String() = b.String() implies a.Equals(b). -/
theorem C10_Equals_congruence (Ext : Type) (a b : Safe) :
    (a.Equals (b.toValue : Value Ext) = true →
      a.String = b.String ∧ a.Truthy = b.Truthy) ∧
    (a.kind = b.kind → a.String = b.String →
      a.Equals (b.toValue : Value Ext) = true) := by
  unfold Safe.toValue
  constructor
  · intro h
    rw [Safe.Equals_safe_iff] at h
    subst h
    exact ⟨rfl, rfl⟩
  · intro hk hs
    rw [Safe.Equals_safe_iff]
    rw [Safe.String_eq_payload, Safe.String_eq_payload] at hs
    exact Safe.eq_of_kind_payload a b hk hs

/-- C10 at two JSStr wrappers of the same text: both directions apply. -/
theorem C10_Equals_congruence_witness :
    (wrap .jsStr "foo\\nbar").Equals ((wrap .jsStr "foo\\nbar").toValue : Value Unit) = true ∧
    (wrap .jsStr "foo\\nbar").String = (wrap .jsStr "foo\\nbar").String ∧
    (wrap .jsStr "foo\\nbar").Truthy = (wrap .jsStr "foo\\nbar").Truthy :=
  have h := C10_Equals_congruence Unit (wrap .jsStr "foo\\nbar") (wrap .jsStr "foo\\nbar")
  have e := h.2 rfl rfl
  ⟨e, h.1 e⟩

end autoescape
